import Mathlib

/-!
Verification development for the safety-threshold evaluation and
time-series analysis core of a medical research platform.

The Python sources are shallowly embedded:

* Python dicts become association lists (`List (String × _)`); insertion
  order is the iteration order, and assignment to an existing key replaces
  the stored value in place (`dictSet`).
* Python numbers become `ℚ`.  Where the NumPy/pandas code lets IEEE NaN
  flow through a computation (skipped statistics, failed correlations),
  values are wrapped in `PyFloat`, whose arithmetic propagates `nan` and
  whose comparisons with `nan` are `false`, as in IEEE 754.  The square
  root, the Student-t quantile and the FFT magnitude spectrum are library
  primitives without exact rational counterparts; they are taken as
  explicit function parameters of the embedding, and theorems state the
  facts they need about them as hypotheses (true of the real primitives).
* Fallible functions return `Except`.
-/

namespace MedAnalysis

/-- Python dict lookup on an association list (first matching key). -/
def alookup {α : Type} (k : String) : List (String × α) → Option α
  | [] => none
  | (k', v) :: rest => if k' = k then some v else alookup k rest

/-- Python dict assignment `d[k] = v`: replaces the value at an existing
key in place, otherwise appends the new binding. -/
def dictSet {α : Type} (k : String) (v : α) : List (String × α) → List (String × α)
  | [] => [(k, v)]
  | (k', v') :: rest => if k' = k then (k, v) :: rest else (k', v') :: dictSet k v rest

/-! ## Threshold evaluator
`Protocol.check_safety_violation` (src/backend/services/protocol/models.py). -/

/-- Which boundary a measurement crossed (`violation_details[param]['type']`). -/
inductive VType : Type
  | below_minimum
  | above_maximum
deriving DecidableEq

/-- One entry of the `violation_details` dict built by
`check_safety_violation`. -/
structure ViolationDetail : Type where
  vtype : VType
  value : ℚ
  threshold : ℚ
deriving DecidableEq

/-- One threshold spec from `self.safety_violation_thresholds`: the code
tests `'min' in threshold` and `'max' in threshold`, so both bounds are
optional keys. -/
structure Threshold : Type where
  min? : Option ℚ
  max? : Option ℚ
deriving DecidableEq

/-- Processing of one `(param, threshold)` entry of the thresholds dict:
the body of the `for param, threshold in ...items()` loop.  The state is
`(violation_found, violation_details)`.  The min check runs first, then the
max check; each assigns `violation_details[param]` on its own. -/
def svStep (data_point : List (String × ℚ)) (st : Bool × List (String × ViolationDetail))
    (e : String × Threshold) : Bool × List (String × ViolationDetail) :=
  match alookup e.1 data_point with
  | none => st
  | some value =>
    let st1 :=
      match e.2.min? with
      | some m => if value < m then (true, dictSet e.1 ⟨.below_minimum, value, m⟩ st.2) else st
      | none => st
    match e.2.max? with
    | some M => if M < value then (true, dictSet e.1 ⟨.above_maximum, value, M⟩ st1.2) else st1
    | none => st1

/-- Model of `Protocol.check_safety_violation(data_point)`: returns the tuple
`(violation_found, violation_message, violation_details)`. -/
def check_safety_violation (thresholds : List (String × Threshold))
    (data_point : List (String × ℚ)) : Bool × String × List (String × ViolationDetail) :=
  let st := thresholds.foldl (svStep data_point) (false, [])
  (st.1, if st.1 then "Safety parameter violation detected" else "", st.2)

/-! ## Severity scorer
`_calculate_severity_score` (src/backend/tasks/analysis.py). -/

/-- Nearest integer with ties to even, the rounding used by Python's
`round`. -/
def roundHalfEven (x : ℚ) : ℤ :=
  let f := ⌊x⌋
  let r := x - f
  if r < 1/2 then f
  else if 1/2 < r then f + 1
  else if f % 2 = 0 then f else f + 1

/-- Python's `round(x, 3)` (idealised to exact rational half-even
rounding at the third decimal). -/
def pyRound3 (x : ℚ) : ℚ := (roundHalfEven (x * 1000) : ℚ) / 1000

/-- One iteration of the loop of `_calculate_severity_score`:
`severity_score = max(severity_score, min(1.0, excess-or-deficit))`. -/
def sevStep (acc : ℚ) (d : ViolationDetail) : ℚ :=
  match d.vtype with
  | .above_maximum => max acc (min 1 ((d.value - d.threshold) / d.threshold))
  | .below_minimum => max acc (min 1 ((d.threshold - d.value) / d.threshold))

/-- Model of `_calculate_severity_score(violation_details)`.  A zero threshold makes
the Python division raise `ZeroDivisionError`; the function's blanket
`except` clause catches it and returns `1.0` (maximum severity). -/
def calculate_severity_score (details : List (String × ViolationDetail)) : ℚ :=
  if details.any (fun p => p.2.threshold == 0) then 1
  else pyRound3 (details.foldl (fun acc p => sevStep acc p.2) 0)

/-- The severity of one entry as the spec words it: the relative excess or
deficit clamped to `[0,1]`. -/
def entrySeveritySpec (d : ViolationDetail) : ℚ :=
  match d.vtype with
  | .above_maximum => max 0 (min 1 ((d.value - d.threshold) / d.threshold))
  | .below_minimum => max 0 (min 1 ((d.threshold - d.value) / d.threshold))

/-- The overall score as the spec words it: the maximum of the per-entry
severities (`0` for an empty report). -/
def maxSeveritySpec (details : List (String × ViolationDetail)) : ℚ :=
  details.foldl (fun acc p => max acc (entrySeveritySpec p.2)) 0

/-! ## NaN-propagating numbers
NumPy/pandas let IEEE NaN flow through the statistics (`0/0`, statistics
of too-small samples).  `PyFloat` models a float that is either a finite
rational or NaN.  Arithmetic propagates `nan`; every ordered comparison
with `nan` is `false`, as in IEEE 754.  The only reachable division by
zero in the embedded code paths is `0/0` (NaN), never `x/0` with `x ≠ 0`,
so `div` maps a zero denominator to `nan`. -/
inductive PyFloat : Type
  | nan
  | num (q : ℚ)
deriving DecidableEq

namespace PyFloat

def add : PyFloat → PyFloat → PyFloat
  | num a, num b => num (a + b)
  | _, _ => nan

def sub : PyFloat → PyFloat → PyFloat
  | num a, num b => num (a - b)
  | _, _ => nan

def mul : PyFloat → PyFloat → PyFloat
  | num a, num b => num (a * b)
  | _, _ => nan

def div : PyFloat → PyFloat → PyFloat
  | num a, num b => if b = 0 then nan else num (a / b)
  | _, _ => nan

/-- Absolute value (`np.abs`). -/
def pabs : PyFloat → PyFloat
  | num a => num |a|
  | nan => nan

/-- The IEEE comparison `x >= t` against a finite threshold: `false` when
`x` is NaN. -/
def geQ (x : PyFloat) (t : ℚ) : Bool :=
  match x with
  | num a => decide (t ≤ a)
  | nan => false

/-- The IEEE comparison `x > 0`: `false` when `x` is NaN. -/
def gtZero (x : PyFloat) : Bool :=
  match x with
  | num a => decide (0 < a)
  | nan => false

end PyFloat

/-- Lifting of the (abstract) library square root to `PyFloat`. -/
def pySqrt (sqrtFn : ℚ → ℚ) : PyFloat → PyFloat
  | .nan => .nan
  | .num q => .num (sqrtFn q)

def pySum (xs : List PyFloat) : PyFloat := xs.foldl PyFloat.add (.num 0)

/-- Mean of a column, NaN-propagating (`np.mean` over the raw values). -/
def pyMeanL (xs : List PyFloat) : PyFloat := PyFloat.div (pySum xs) (.num (xs.length : ℚ))

/-- Deviations from the mean. -/
def centered (xs : List PyFloat) : List PyFloat :=
  let m := pyMeanL xs
  xs.map (fun x => PyFloat.sub x m)

/-- Sum of pointwise products. -/
def dotPF (xs ys : List PyFloat) : PyFloat := pySum (List.zipWith PyFloat.mul xs ys)

/-- Pearson correlation coefficient as computed by `np.corrcoef` /
`pandas.DataFrame.corr`: `Sxy / sqrt(Sxx * Syy)` (over the reals
`sqrt (a*b) = sqrt a * sqrt b`, so the combined radical is the library's
value; `sqrtFn` stands for the library square root).  A zero variance
makes the denominator zero and the result NaN. -/
def pearsonPF (sqrtFn : ℚ → ℚ) (xs ys : List PyFloat) : PyFloat :=
  let sxy := dotPF (centered xs) (centered ys)
  let sxx := dotPF (centered xs) (centered xs)
  let syy := dotPF (centered ys) (centered ys)
  PyFloat.div sxy (pySqrt sqrtFn (PyFloat.mul sxx syy))

/-- Least-squares slope of `np.polyfit(xs, ys, 1)`. -/
def lstsqSlope (xs ys : List PyFloat) : PyFloat :=
  PyFloat.div (dotPF (centered xs) (centered ys)) (dotPF (centered xs) (centered xs))

/-- Least-squares intercept of `np.polyfit(xs, ys, 1)`. -/
def lstsqIntercept (xs ys : List PyFloat) : PyFloat :=
  PyFloat.sub (pyMeanL ys) (PyFloat.mul (lstsqSlope xs ys) (pyMeanL xs))

/-! ## Data records
`pd.DataFrame([dp.data for dp in data_points])`: each record is a mapping
from metric name to numeric value, plus the optional `recorded_at` key
(modelled as a rational day number; `pd.to_datetime` parsing is external
to the core). -/

structure DataRecord : Type where
  data : List (String × ℚ)
  recorded_at : Option ℚ
deriving DecidableEq

/-- First-appearance-ordered deduplication, mirroring the column order a
DataFrame built from a list of dicts assigns (`df.columns`). -/
def dedupFirstAux (seen : List String) : List String → List String
  | [] => []
  | k :: rest =>
    if seen.contains k then dedupFirstAux seen rest
    else k :: dedupFirstAux (k :: seen) rest

/-- The numeric columns of the frame, in order of first appearance
(`df.select_dtypes(include=[np.number]).columns`). -/
def numericCols (records : List DataRecord) : List String :=
  dedupFirstAux [] ((records.map (fun r => r.data.map Prod.fst)).flatten)

/-- A column as the DataFrame stores it: one entry per record, NaN where
the record lacks the key. -/
def colVals (col : String) (records : List DataRecord) : List PyFloat :=
  records.map (fun r =>
    match alookup col r.data with
    | some v => .num v
    | none => .nan)

/-- The non-missing observations of a column, as used by the pandas
statistics with their default `skipna=True`. -/
def obsOf (col : String) (records : List DataRecord) : List ℚ :=
  records.filterMap (fun r => alookup col r.data)

/-- Rows where both columns are present: the pairwise-complete
observations `DataFrame.corr` uses for a column pair. -/
def pairVals (a b : String) (records : List DataRecord) : List (ℚ × ℚ) :=
  records.filterMap (fun r =>
    match alookup a r.data, alookup b r.data with
    | some x, some y => some (x, y)
    | _, _ => none)

/-! ## Statistical summarizer
`AnalysisResult.compute_statistics` (src/backend/services/analysis/models.py). -/

/-- Ascending insertion of one rational into a sorted list. -/
def insertAsc (x : ℚ) : List ℚ → List ℚ
  | [] => [x]
  | y :: rest => if x ≤ y then x :: y :: rest else y :: insertAsc x rest

/-- Ascending sort of the observations of a column. -/
def sortQ (xs : List ℚ) : List ℚ := xs.foldl (fun acc x => insertAsc x acc) []

/-- Minimum of a column (`df[col].min()`, skipna); `0` is never reached
because columns are non-empty. -/
def minObs : List ℚ → ℚ
  | [] => 0
  | x :: xs => xs.foldl min x

/-- Maximum of a column (`df[col].max()`, skipna). -/
def maxObs : List ℚ → ℚ
  | [] => 0
  | x :: xs => xs.foldl max x

/-- Mean of the non-missing observations (`df[col].mean()`, skipna). -/
def sampleMean (xs : List ℚ) : ℚ := xs.sum / (xs.length : ℚ)

/-- Sum of squared deviations from the mean. -/
def sumSqDev (xs : List ℚ) : ℚ := (xs.map (fun x => (x - sampleMean xs) ^ 2)).sum

/-- Sample standard deviation (`df[col].std()`, `ddof=1`, skipna): the
square root of `sum of squared deviations / (n - 1)`.  For `n = 1` the
quotient is the float `0/0`, that is NaN, and the NaN survives the square
root. -/
def sampleStd (sqrtFn : ℚ → ℚ) (xs : List ℚ) : PyFloat :=
  pySqrt sqrtFn (PyFloat.div (.num (sumSqDev xs)) (.num ((xs.length : ℚ) - 1)))

/-- Linear-interpolation quantile, the pandas default
(`df[col].quantile(q)`): at fractional position `q * (n - 1)` of the
ascending observations. -/
def quantileLin (xs : List ℚ) (q : ℚ) : ℚ :=
  let s := sortQ xs
  let h : ℚ := q * ((xs.length : ℚ) - 1)
  let i : ℕ := (⌊h⌋).toNat
  let lo := s.getD i 0
  let hi := s.getD (i + 1) lo
  lo + (h - (i : ℚ)) * (hi - lo)

/-- Standard error of the mean as `scipy.stats.sem(df[col])` computes it:
sample std over `sqrt(n)`, with NaN propagation (scipy does *not* skip
missing values) and `n` the full column length. -/
def semOf (sqrtFn : ℚ → ℚ) (colList : List PyFloat) : PyFloat :=
  let n := colList.length
  let m := pyMeanL colList
  let ssd := pySum (colList.map (fun x => PyFloat.mul (PyFloat.sub x m) (PyFloat.sub x m)))
  PyFloat.div (pySqrt sqrtFn (PyFloat.div ssd (.num ((n : ℚ) - 1))))
    (pySqrt sqrtFn (.num (n : ℚ)))

/-- Per-metric block of the statistical summary.  Every key the Python
dict always carries is a field here; degenerate values are stored as NaN,
exactly as `float(...)` stores them. -/
structure MetricStats : Type where
  mean : ℚ
  median : ℚ
  std_dev : PyFloat
  q1 : ℚ
  q2 : ℚ
  q3 : ℚ
  range_min : ℚ
  range_max : ℚ
  ci_lower : PyFloat
  ci_upper : PyFloat
deriving DecidableEq

/-- Statistics of one column.  `tq df` stands for the Student-t 97.5%
quantile at `df` degrees of freedom used by `scipy.stats.t.interval`. -/
def metricStatsOf (sqrtFn : ℚ → ℚ) (tq : ℕ → ℚ) (col : String)
    (records : List DataRecord) : MetricStats :=
  let obs := obsOf col records
  let colList := colVals col records
  let n := records.length
  let m := sampleMean obs
  let sem := semOf sqrtFn colList
  { mean := m
    median := quantileLin obs (1/2)
    std_dev := sampleStd sqrtFn obs
    q1 := quantileLin obs (1/4)
    q2 := quantileLin obs (1/2)
    q3 := quantileLin obs (3/4)
    range_min := minObs obs
    range_max := maxObs obs
    ci_lower := PyFloat.sub (.num m) (PyFloat.mul (.num (tq (n - 1))) sem)
    ci_upper := PyFloat.add (.num m) (PyFloat.mul (.num (tq (n - 1))) sem) }

/-- Pearson correlation of a column pair over the pairwise-complete rows. -/
def pearsonPair (sqrtFn : ℚ → ℚ) (a b : String) (records : List DataRecord) : PyFloat :=
  let ps := pairVals a b records
  pearsonPF sqrtFn (ps.map (fun p => .num p.1)) (ps.map (fun p => .num p.2))

/-- Average rank of `x` in `xs` (ties share the mean of their positions),
the rank transform behind Spearman correlation. -/
def avgRank (xs : List ℚ) (x : ℚ) : ℚ :=
  (xs.countP (fun y => decide (y < x)) : ℚ) + ((xs.countP (fun y => decide (y = x)) : ℚ) + 1) / 2

/-- Spearman correlation of a column pair: Pearson correlation of the
average ranks of the pairwise-complete rows. -/
def spearmanPair (sqrtFn : ℚ → ℚ) (a b : String) (records : List DataRecord) : PyFloat :=
  let ps := pairVals a b records
  let xs := ps.map Prod.fst
  let ys := ps.map Prod.snd
  pearsonPF sqrtFn (xs.map (fun x => .num (avgRank xs x))) (ys.map (fun y => .num (avgRank ys y)))

/-- A correlation matrix as `DataFrame.corr(...).to_dict()` lays it out:
a nested column-to-column mapping over all column pairs, diagonal
included. -/
def corrMatrix (f : String → String → PyFloat) (cols : List String) :
    List (String × List (String × PyFloat)) :=
  cols.map (fun a => (a, cols.map (fun b => (b, f a b))))

structure CorrMatrices : Type where
  pearson : List (String × List (String × PyFloat))
  spearman : List (String × List (String × PyFloat))
deriving DecidableEq

structure TimeMetrics : Type where
  start_date : ℚ
  end_date : ℚ
  duration_days : ℤ
deriving DecidableEq

structure StatsSummary : Type where
  sample_size : ℕ
  metrics : List (String × MetricStats)
  correlations : Option CorrMatrices
  time_metrics : Option TimeMetrics
deriving DecidableEq

/-- Model of `AnalysisResult.compute_statistics(data_points)`: raises
(`ValidationException`) on an empty collection, otherwise builds the
summary dict. -/
def compute_statistics (sqrtFn : ℚ → ℚ) (tq : ℕ → ℚ)
    (records : List DataRecord) : Except String StatsSummary :=
  if records.isEmpty then .error "No data points provided for analysis"
  else
    let cols := numericCols records
    let tss := records.filterMap (fun r => r.recorded_at)
    .ok
      { sample_size := records.length
        metrics := cols.map (fun col => (col, metricStatsOf sqrtFn tq col records))
        correlations :=
          if 2 ≤ cols.length then
            some
              { pearson := corrMatrix (fun a b => pearsonPair sqrtFn a b records) cols
                spearman := corrMatrix (fun a b => spearmanPair sqrtFn a b records) cols }
          else none
        time_metrics :=
          if records.any (fun r => r.recorded_at.isSome) then
            some
              { start_date := minObs tss
                end_date := maxObs tss
                duration_days := ⌊maxObs tss - minObs tss⌋ }
          else none }

/-! ## Pattern detector
`AnalysisResult.detect_patterns` (src/backend/services/analysis/models.py). -/

/-- Comparison used by `df.sort_values('recorded_at')`: missing
timestamps (NaT) sort last.  `tsLT r s` means `r` sorts strictly before
`s`. -/
def tsLT : Option ℚ → Option ℚ → Bool
  | some a, some b => decide (a < b)
  | some _, none => true
  | _, _ => false

/-- Stable insertion keeping equal timestamps in their original order. -/
def insertTs (r : DataRecord) : List DataRecord → List DataRecord
  | [] => [r]
  | r2 :: rest => if tsLT r.recorded_at r2.recorded_at then r :: r2 :: rest else r2 :: insertTs r rest

/-- Stable sort of the frame rows by `recorded_at`. -/
def sortByTs (records : List DataRecord) : List DataRecord :=
  records.foldl (fun acc r => insertTs r acc) []

/-- Model of `np.fft.fftfreq(n)`: frequencies `k/n` for `k < ⌈n/2⌉`, then the
negative frequencies `(k-n)/n`. -/
def fftfreq (n : ℕ) : List ℚ :=
  (List.range n).map (fun k => if k < (n + 1) / 2 then (k : ℚ) / n else ((k : ℚ) - n) / n)

/-- Model of `np.argmax`: index of the first occurrence of the maximum. -/
def argmaxAux : List ℚ → ℕ → ℕ → ℚ → ℕ
  | [], _, bi, _ => bi
  | x :: xs, i, bi, bv => if bv < x then argmaxAux xs (i + 1) i x else argmaxAux xs (i + 1) bi bv

def argmaxQ : List ℚ → ℕ
  | [] => 0
  | x :: xs => argmaxAux xs 1 0 x

inductive TrendDir : Type
  | increasing
  | decreasing
deriving DecidableEq

inductive CorrDir : Type
  | positive
  | negative
deriving DecidableEq

/-- The tagged pattern dicts `detect_patterns` appends. -/
inductive Pattern : Type
  | trend (metric : String) (direction : TrendDir) (confidence : PyFloat)
      (slope intercept : PyFloat)
  | seasonality (metric : String) (confidence : PyFloat) (period_days : ℚ)
  | correlation (metric_a metric_b : String) (correlation : PyFloat)
      (confidence : PyFloat) (direction : CorrDir)
deriving DecidableEq

/-- The `confidence` entry of a pattern dict, read by the final filter. -/
def Pattern.conf : Pattern → PyFloat
  | .trend _ _ c _ _ => c
  | .seasonality _ c _ => c
  | .correlation _ _ _ c _ => c

/-- Trend analysis for one column: regression of the column against
`range(len(df))`, confidence `abs(np.corrcoef(range(len(df)), df[col])[0,1])`,
appended when the confidence passes the threshold. -/
def trendPatternsFor (sqrtFn : ℚ → ℚ) (col : String) (n : ℕ) (ys : List PyFloat)
    (threshold : ℚ) : List Pattern :=
  let xs : List PyFloat := (List.range n).map (fun i => .num (i : ℚ))
  let conf := PyFloat.pabs (pearsonPF sqrtFn xs ys)
  let slope := lstsqSlope xs ys
  if conf.geQ threshold then
    [Pattern.trend col (if slope.gtZero then .increasing else .decreasing) conf slope
      (lstsqIntercept xs ys)]
  else []

/-- Seasonality detection for one column, for at least 4 points:
`magFn ys` stands for `np.abs(np.fft.fft(ys))`, the FFT magnitude
spectrum.  The code computes
`peak_freq = frequencies[np.argmax(magnitude[1:])]`: the argmax index is
relative to the tail `magnitude[1:]` but is used on the unshifted
`frequencies` array. -/
def seasonalityPatternsFor (magFn : List PyFloat → List ℚ) (col : String) (n : ℕ)
    (ys : List PyFloat) : List Pattern :=
  if 4 ≤ n then
    let mags := magFn ys
    let tail := mags.drop 1
    let peak_freq := (fftfreq n).getD (argmaxQ tail) 0
    if 0 < peak_freq then
      [Pattern.seasonality col
        (PyFloat.div (.num (maxObs tail)) (.num tail.sum)) (1 / peak_freq)]
    else []
  else []

/-- All unordered column pairs in the nested-loop order
`for i ...: for j in range(i+1, ...)`. -/
def colPairs : List String → List (String × String)
  | [] => []
  | x :: xs => xs.map (fun y => (x, y)) ++ colPairs xs

/-- Correlation patterns: one per column pair whose absolute Pearson
coefficient passes the threshold. -/
def corrPatternsFor (sqrtFn : ℚ → ℚ) (records : List DataRecord) (cols : List String)
    (threshold : ℚ) : List Pattern :=
  (colPairs cols).filterMap (fun p =>
    let corr := pearsonPair sqrtFn p.1 p.2 records
    if (PyFloat.pabs corr).geQ threshold then
      some (Pattern.correlation p.1 p.2 corr (PyFloat.pabs corr)
        (if corr.gtZero then .positive else .negative))
    else none)

/-- Model of `AnalysisResult.detect_patterns(data_points, confidence_threshold)`.
An empty collection returns an empty list (no error).  The whole
trend/seasonality block is guarded by the presence of a `recorded_at`
column; the correlation block always runs.  The returned list is
re-filtered by `p['confidence'] >= confidence_threshold` at the end. -/
def detect_patterns (sqrtFn : ℚ → ℚ) (magFn : List PyFloat → List ℚ)
    (records : List DataRecord) (threshold : ℚ) : Except String (List Pattern) :=
  if records.isEmpty then .ok []
  else
    let hasTs := records.any (fun r => r.recorded_at.isSome)
    let sorted := if hasTs then sortByTs records else records
    let n := records.length
    let cols := numericCols records
    let tsPatterns :=
      if hasTs then
        (cols.map (fun col =>
          let ys := colVals col sorted
          trendPatternsFor sqrtFn col n ys threshold ++
            seasonalityPatternsFor magFn col n ys)).flatten
      else []
    let corrPs := corrPatternsFor sqrtFn sorted cols threshold
    .ok ((tsPatterns ++ corrPs).filter (fun p => p.conf.geQ threshold))

/-! ## Safety-parameters schema validator
`validate_safety_parameters` (src/backend/services/protocol/schemas.py).
The input document is modelled in typed form: required keys and value
types of `SAFETY_PARAMETERS_SCHEMA` hold by construction, and `schemaOk`
carries the remaining structural constraints the JSON-schema pass
enforces (non-empty `markers`, and the `measurement_unit` pattern for the
ranges of every marker whose name matches the `marker_name` pattern —
`patternProperties` leaves non-matching names unconstrained). -/

/-- One measurement range (`MEASUREMENT_RANGE_SCHEMA`): required `min`,
`max`, `unit`; optional alert/critical threshold numbers. -/
structure RangeSpec : Type where
  rmin : ℚ
  rmax : ℚ
  unit : String
  alert_threshold : Option ℚ
  critical_threshold : Option ℚ
deriving DecidableEq

/-- One marker entry: required `critical_ranges` and `alert_ranges`. -/
structure MarkerSpec : Type where
  critical_ranges : RangeSpec
  alert_ranges : RangeSpec
  intervention_required : Option Bool
deriving DecidableEq

structure TriggerSpec : Type where
  condition : String
  action : String
  notification_required : Option Bool
  immediate_action : Option Bool
deriving DecidableEq

/-- A safety-parameters document: required `markers` and
`intervention_triggers`. -/
structure SafetyParams : Type where
  markers : List (String × MarkerSpec)
  intervention_triggers : List TriggerSpec
deriving DecidableEq

/-- The `marker_name` pattern `[a-zA-Z0-9\s\-_]` of length 2 to 50
(checked over the character sequence of the name). -/
def markerNameOk (s : String) : Bool :=
  2 ≤ s.data.length && s.data.length ≤ 50 &&
    s.data.all (fun c => c.isAlphanum || c.isWhitespace || c = '-' || c = '_')

/-- The `measurement_unit` pattern `[a-zA-Z/%]+`. -/
def unitOk (s : String) : Bool :=
  s.data.length != 0 && s.data.all (fun c => c.isAlpha || c = '/' || c = '%')

/-- The structural checks of the JSON-schema pass on a typed document. -/
def schemaOk (sp : SafetyParams) : Bool :=
  !sp.markers.isEmpty &&
    sp.markers.all (fun e =>
      !(markerNameOk e.1) ||
        (unitOk e.2.critical_ranges.unit && unitOk e.2.alert_ranges.unit))

/-- The relational breach condition of the loop body:
`critical.get('min') > alert.get('min') or critical.get('max') < alert.get('max')`. -/
def rangeBreach (m : MarkerSpec) : Bool :=
  decide (m.alert_ranges.rmin < m.critical_ranges.rmin) ||
    decide (m.critical_ranges.rmax < m.alert_ranges.rmax)

/-- Validation failure kinds of `validate_safety_parameters`: a
JSON-schema `ValidationError` re-raised as a schema violation, or the
relational `ValidationException` whose details name the offending
marker. -/
inductive SchemaErr : Type
  | schemaViolation
  | invalidRanges (marker : String)
deriving DecidableEq

/-- Model of `validate_safety_parameters(safety_params)`: the JSON-schema pass,
then the first marker (in insertion order) whose alert range breaches its
critical range raises naming that marker; otherwise returns `True`. -/
def validate_safety_parameters (sp : SafetyParams) : Except SchemaErr Bool :=
  if !schemaOk sp then .error .schemaViolation
  else
    match sp.markers.find? (fun e => rangeBreach e.2) with
    | some e => .error (.invalidRanges e.1)
    | none => .ok true

/-! ## Library stand-ins
Concrete instances of the abstract numeric primitives, used by the closed
witness and counterexample statements.  Each is correct at the inputs the
statement reaches. -/

/-- Square-root stand-in that is exact at `0`. -/
def sqrtZero : ℚ → ℚ := fun _ => 0

/-- Square-root stand-in exact at `442225 = 665 ^ 2`, the radicand the
trend confidence of the linear 20-point series reaches. -/
def sqrtStub665 : ℚ → ℚ := fun q => if q = 442225 then 665 else 0

/-- Square-root stand-in at `20`: `4 < 5 = sqrt-ish 20`, as for the real
`sqrt 20 ≈ 4.47`. -/
def sqrtStub20 : ℚ → ℚ := fun q => if q = 20 then 5 else 0

/-- Student-t quantile stand-in. -/
def tqStub : ℕ → ℚ := fun _ => 2

/-- FFT magnitude-spectrum stand-in for the 4-point alternating series
`[1, -1, 1, -1]`: its exact discrete Fourier transform is
`[0, 0, 4, 0]`, so the magnitudes are `[0, 0, 4, 0]`. -/
def magStub4 : List PyFloat → List ℚ := fun _ => [0, 0, 4, 0]

/-- FFT magnitude-spectrum stand-in for a 20-point series whose dominant
non-zero-frequency bin is bin 1 (true of the linear ramp): all-equal
magnitudes put the tail argmax at position `0`. -/
def magStub20 : List PyFloat → List ℚ := fun _ => List.replicate 20 0

/-- The perfectly linear increasing series `1..20` without timestamps. -/
def ramp20NoTs : List DataRecord :=
  [⟨[("x", 1)], none⟩, ⟨[("x", 2)], none⟩, ⟨[("x", 3)], none⟩, ⟨[("x", 4)], none⟩,
    ⟨[("x", 5)], none⟩, ⟨[("x", 6)], none⟩, ⟨[("x", 7)], none⟩, ⟨[("x", 8)], none⟩,
    ⟨[("x", 9)], none⟩, ⟨[("x", 10)], none⟩, ⟨[("x", 11)], none⟩, ⟨[("x", 12)], none⟩,
    ⟨[("x", 13)], none⟩, ⟨[("x", 14)], none⟩, ⟨[("x", 15)], none⟩, ⟨[("x", 16)], none⟩,
    ⟨[("x", 17)], none⟩, ⟨[("x", 18)], none⟩, ⟨[("x", 19)], none⟩, ⟨[("x", 20)], none⟩]

/-- The perfectly linear increasing series `1..20` with daily timestamps
`0..19`. -/
def ramp20 : List DataRecord :=
  [⟨[("x", 1)], some 0⟩, ⟨[("x", 2)], some 1⟩, ⟨[("x", 3)], some 2⟩, ⟨[("x", 4)], some 3⟩,
    ⟨[("x", 5)], some 4⟩, ⟨[("x", 6)], some 5⟩, ⟨[("x", 7)], some 6⟩, ⟨[("x", 8)], some 7⟩,
    ⟨[("x", 9)], some 8⟩, ⟨[("x", 10)], some 9⟩, ⟨[("x", 11)], some 10⟩,
    ⟨[("x", 12)], some 11⟩, ⟨[("x", 13)], some 12⟩, ⟨[("x", 14)], some 13⟩,
    ⟨[("x", 15)], some 14⟩, ⟨[("x", 16)], some 15⟩, ⟨[("x", 17)], some 16⟩,
    ⟨[("x", 18)], some 17⟩, ⟨[("x", 19)], some 18⟩, ⟨[("x", 20)], some 19⟩]

/-- The `x` column of `ramp20` as the frame stores it. -/
def rampCol : List PyFloat :=
  [.num 1, .num 2, .num 3, .num 4, .num 5, .num 6, .num 7, .num 8, .num 9, .num 10,
    .num 11, .num 12, .num 13, .num 14, .num 15, .num 16, .num 17, .num 18, .num 19,
    .num 20]

/-- The alternating 4-point series `1, -1, 1, -1` (period 2) with daily
timestamps. -/
def alt4 : List DataRecord :=
  [⟨[("x", 1)], some 0⟩, ⟨[("x", -1)], some 1⟩, ⟨[("x", 1)], some 2⟩, ⟨[("x", -1)], some 3⟩]

/-- The `x` column of `alt4`. -/
def alt4Col : List PyFloat := [.num 1, .num (-1), .num 1, .num (-1)]

/-- Reading one entry of the nested Pearson correlation dict of a
summary (`summary['correlations']['pearson'][a][b]`). -/
def pearsonEntry (s : StatsSummary) (a b : String) : Option PyFloat :=
  s.correlations.bind (fun c => (alookup a c.pearson).bind (fun row => alookup b row))

/-! ## Lemmas about the evaluator's dict operations -/

theorem alookup_dictSet_self {α : Type} (k : String) (v : α) (d : List (String × α)) :
    alookup k (dictSet k v d) = some v := by
  induction d with
  | nil => simp [dictSet, alookup]
  | cons e rest ih =>
    obtain ⟨k', v'⟩ := e
    by_cases h : k' = k
    · simp [dictSet, h, alookup]
    · simp [dictSet, h, alookup, ih]

theorem alookup_dictSet_ne {α : Type} {k' k : String} (h : k' ≠ k) (v : α)
    (d : List (String × α)) : alookup k (dictSet k' v d) = alookup k d := by
  induction d with
  | nil => simp [dictSet, alookup, h]
  | cons e rest ih =>
    obtain ⟨k2, v2⟩ := e
    by_cases h2 : k2 = k'
    · subst h2
      simp [dictSet, alookup, h]
    · simp [dictSet, h2, alookup, ih]

theorem keys_dictSet {α : Type} (k : String) (v : α) (d : List (String × α)) :
    (dictSet k v d).map Prod.fst =
      if k ∈ d.map Prod.fst then d.map Prod.fst else d.map Prod.fst ++ [k] := by
  induction d with
  | nil => simp [dictSet]
  | cons e rest ih =>
    obtain ⟨k2, v2⟩ := e
    by_cases h2 : k2 = k
    · subst h2
      simp [dictSet]
    · have hne : k ≠ k2 := fun h => h2 h.symm
      by_cases hmem : k ∈ rest.map Prod.fst
      · simp [dictSet, h2, ih, hmem, hne]
      · simp [dictSet, h2, ih, hmem, hne]

theorem nodup_keys_dictSet {α : Type} (k : String) (v : α) (d : List (String × α))
    (h : (d.map Prod.fst).Nodup) : ((dictSet k v d).map Prod.fst).Nodup := by
  rw [keys_dictSet]
  by_cases hmem : k ∈ d.map Prod.fst
  · simpa [hmem] using h
  · simp only [hmem, if_false]
    exact List.nodup_append_comm.mpr (by
      simpa [List.nodup_cons] using
        ⟨fun x hx => hmem (List.mem_map_of_mem Prod.fst hx), h⟩)

theorem svStep_nodup_keys (m : List (String × ℚ)) (st : Bool × List (String × ViolationDetail))
    (e : String × Threshold) (h : (st.2.map Prod.fst).Nodup) :
    (((svStep m st e).2).map Prod.fst).Nodup := by
  unfold svStep
  cases alookup e.1 m with
  | none => exact h
  | some v =>
    cases e.2.min? with
    | none =>
      cases e.2.max? with
      | none => exact h
      | some M =>
        by_cases hM : M < v
        · simp only [hM, if_pos]
          exact nodup_keys_dictSet _ _ _ h
        · simpa [hM] using h
    | some lo =>
      by_cases hlo : v < lo
      · cases e.2.max? with
        | none => simpa [hlo] using nodup_keys_dictSet e.1 _ _ h
        | some M =>
          by_cases hM : M < v
          · simp only [hlo, hM, if_pos]
            exact nodup_keys_dictSet _ _ _ (nodup_keys_dictSet _ _ _ h)
          · simpa [hlo, hM] using nodup_keys_dictSet e.1 _ _ h
      · cases e.2.max? with
        | none => simpa [hlo] using h
        | some M =>
          by_cases hM : M < v
          · simp only [hlo, if_neg, hM, if_pos]
            exact nodup_keys_dictSet _ _ _ h
          · simpa [hlo, hM] using h

theorem foldl_svStep_nodup_keys (m : List (String × ℚ)) (t : List (String × Threshold)) :
    ∀ st : Bool × List (String × ViolationDetail), (st.2.map Prod.fst).Nodup →
      (((t.foldl (svStep m) st).2).map Prod.fst).Nodup := by
  induction t with
  | nil => intro st h; exact h
  | cons e rest ih =>
    intro st h
    exact ih _ (svStep_nodup_keys m st e h)

theorem alookup_svStep_ne (m : List (String × ℚ)) (st : Bool × List (String × ViolationDetail))
    (e : String × Threshold) (k : String) (h : e.1 ≠ k) :
    alookup k (svStep m st e).2 = alookup k st.2 := by
  unfold svStep
  cases alookup e.1 m with
  | none => rfl
  | some v =>
    cases e.2.min? with
    | none =>
      cases e.2.max? with
      | none => rfl
      | some M =>
        by_cases hM : M < v
        · simp [hM, alookup_dictSet_ne h]
        · simp [hM]
    | some lo =>
      by_cases hlo : v < lo
      · cases e.2.max? with
        | none => simp [hlo, alookup_dictSet_ne h]
        | some M =>
          by_cases hM : M < v
          · simp [hlo, hM, alookup_dictSet_ne h]
          · simp [hlo, hM, alookup_dictSet_ne h]
      · cases e.2.max? with
        | none => simp [hlo]
        | some M =>
          by_cases hM : M < v
          · simp [hlo, hM, alookup_dictSet_ne h]
          · simp [hlo, hM]

theorem alookup_foldl_svStep_ne (m : List (String × ℚ)) (t : List (String × Threshold))
    (k : String) (h : ∀ e ∈ t, e.1 ≠ k) :
    ∀ st, alookup k ((t.foldl (svStep m) st).2) = alookup k st.2 := by
  induction t with
  | nil => intro st; rfl
  | cons e rest ih =>
    intro st
    rw [List.foldl_cons, ih (fun e' he' => h e' (List.mem_cons_of_mem _ he')),
      alookup_svStep_ne m st e k (h e (List.mem_cons_self _ _))]

/-! ## Claim theorems: threshold evaluator and severity scorer -/

/-- C1: for every measurement map and every threshold map whose specs each
have `min < max`, if every metric present in both maps has its value in
the closed interval `[min, max]`, then `check_safety_violation` returns
the empty report `(False, "", {})`; metrics present in only one of the two
maps are ignored without error. -/
theorem C1_in_range_empty_report (t : List (String × Threshold)) (m : List (String × ℚ))
    (hspec : ∀ k th, (k, th) ∈ t → ∃ lo hi, th.min? = some lo ∧ th.max? = some hi ∧ lo < hi)
    (hin : ∀ k th v lo hi, (k, th) ∈ t → alookup k m = some v →
      th.min? = some lo → th.max? = some hi → lo ≤ v ∧ v ≤ hi) :
    check_safety_violation t m = (false, "", []) := by
  have hstep : ∀ e ∈ t, ∀ st, svStep m st e = st := by
    intro e he st
    obtain ⟨lo, hi, hlo, hhi, _⟩ := hspec e.1 e.2 he
    unfold svStep
    cases hm : alookup e.1 m with
    | none => rfl
    | some v =>
      obtain ⟨h1, h2⟩ := hin e.1 e.2 v lo hi he hm hlo hhi
      simp [hlo, hhi, not_lt.mpr h1, not_lt.mpr h2]
  have hfold : ∀ (l : List (String × Threshold)), (∀ e ∈ l, ∀ st, svStep m st e = st) →
      ∀ st, l.foldl (svStep m) st = st := by
    intro l
    induction l with
    | nil => intro _ st; rfl
    | cons e rest ih =>
      intro h st
      rw [List.foldl_cons, h e (List.mem_cons_self _ _) st]
      exact ih (fun e' he' => h e' (List.mem_cons_of_mem _ he')) st
  unfold check_safety_violation
  rw [hfold t hstep]
  simp

/-- C1 witness: a shared metric inside its range, one metric only in the
measurement and one only in the thresholds. -/
theorem C1_in_range_empty_report_witness :
    check_safety_violation [("vitamin_d", ⟨some 0, some 10⟩)] [("vitamin_d", 5), ("extra", 99)] =
      (false, "", []) := by
  refine C1_in_range_empty_report _ _ ?_ ?_
  · intro k th h
    simp only [List.mem_singleton, Prod.mk.injEq] at h
    obtain ⟨hk, hth⟩ := h
    subst hth
    exact ⟨0, 10, rfl, rfl, by norm_num⟩
  · intro k th v lo hi hmem hv hlo hhi
    simp only [List.mem_singleton, Prod.mk.injEq] at hmem
    obtain ⟨hk, hth⟩ := hmem
    subst hk
    subst hth
    simp only [alookup, String.reduceEq, reduceIte, Option.some.injEq] at hv hlo hhi
    constructor
    · rw [← hlo, ← hv]; norm_num
    · rw [← hhi, ← hv]; norm_num

/-- Max-wins accumulation: once the entry for key `k` trips both checks,
the final details map at `k` holds the `above_maximum` detail (the max
check assigns second and overwrites), and no later entry touches it when
the threshold keys are distinct. -/
theorem maxwins_foldl (m : List (String × ℚ)) (k : String) (th : Threshold) (lo hi v : ℚ)
    (hlo : th.min? = some lo) (hhi : th.max? = some hi) (hv : alookup k m = some v)
    (h1 : v < lo) (h2 : hi < v) :
    ∀ (t : List (String × Threshold)) (st : Bool × List (String × ViolationDetail)),
      (k, th) ∈ t → (t.map Prod.fst).Nodup →
      alookup k ((t.foldl (svStep m) st).2) = some ⟨.above_maximum, v, hi⟩ := by
  intro t
  induction t with
  | nil => intro st h; exact absurd h (List.not_mem_nil _)
  | cons e rest ih =>
    intro st hmem hnd
    rw [List.map_cons, List.nodup_cons] at hnd
    rcases List.mem_cons.mp hmem with heq | hrest
    · rw [List.foldl_cons]
      have hself : alookup k ((svStep m st e).2) = some ⟨.above_maximum, v, hi⟩ := by
        rw [← heq]
        unfold svStep
        simp only [hv, hlo, hhi, h1, h2, if_pos]
        exact alookup_dictSet_self k _ _
      have hne : ∀ e' ∈ rest, e'.1 ≠ k := by
        intro e' he' hk
        apply hnd.1
        rw [← heq]
        have hmm : e'.1 ∈ rest.map Prod.fst := List.mem_map_of_mem Prod.fst he'
        rw [hk] at hmm
        exact hmm
      rw [alookup_foldl_svStep_ne m rest k hne, hself]
    · exact ih _ hrest hnd.2

/-- C2 counterexample: with spec `min = 10 > max = 5` the value `7` trips
both checks, and the recorded detail is the `above_maximum` one — the
claim says the `below_minimum` detail wins. -/
theorem C2_single_detail_cex :
    alookup "hr" ((check_safety_violation [("hr", ⟨some 10, some 5⟩)] [("hr", 7)]).2.2) =
        some ⟨.above_maximum, 7, 5⟩ ∧
      alookup "hr" ((check_safety_violation [("hr", ⟨some 10, some 5⟩)] [("hr", 7)]).2.2) ≠
        some ⟨.below_minimum, 7, 10⟩ := by
  have h : (check_safety_violation [("hr", ⟨some 10, some 5⟩)] [("hr", 7)]).2.2 =
      [("hr", ⟨.above_maximum, 7, 5⟩)] := by
    norm_num [check_safety_violation, svStep, alookup, dictSet]
  rw [h]
  refine ⟨by simp [alookup], by simp [alookup]⟩

/-- C2 amended: each metric contributes at most one `ViolationDetail` per
call (the details dict has no duplicate keys), and when a single value
trips both the min and the max check the recorded detail for that metric
is the `above_maximum` one — the max check runs second and overwrites the
`below_minimum` detail. -/
theorem C2_single_detail_max_wins :
    (∀ (t : List (String × Threshold)) (m : List (String × ℚ)),
      (((check_safety_violation t m).2.2).map Prod.fst).Nodup) ∧
    (∀ (t : List (String × Threshold)) (m : List (String × ℚ)) (k : String) (th : Threshold)
      (lo hi v : ℚ), (t.map Prod.fst).Nodup → (k, th) ∈ t →
      th.min? = some lo → th.max? = some hi → alookup k m = some v →
      v < lo → hi < v →
      alookup k ((check_safety_violation t m).2.2) = some ⟨.above_maximum, v, hi⟩) := by
  constructor
  · intro t m
    exact foldl_svStep_nodup_keys m t (false, []) (by simp)
  · intro t m k th lo hi v hnd hmem hlo hhi hv h1 h2
    exact maxwins_foldl m k th lo hi v hlo hhi hv h1 h2 t (false, []) hmem hnd

/-- C2 witness: the max-wins half applied to a two-metric threshold map. -/
theorem C2_single_detail_max_wins_witness :
    alookup "hr"
        ((check_safety_violation [("hr", ⟨some 10, some 5⟩), ("bp", ⟨some 0, some 1⟩)]
          [("hr", 7)]).2.2) =
      some ⟨.above_maximum, 7, 5⟩ :=
  C2_single_detail_max_wins.2 _ _ "hr" ⟨some 10, some 5⟩ 10 5 7
    (by simp) (by simp) rfl rfl (by simp [alookup]) (by norm_num) (by norm_num)

/-- C3 counterexample: a threshold map with `min = 10 ≥ max = 5` does not
make `check_safety_violation` fail; it returns a violation report computed
from the inconsistent spec. -/
theorem C3_no_defensive_recheck_cex :
    check_safety_violation [("hr", ⟨some 10, some 5⟩)] [("hr", 7)] =
      (true, "Safety parameter violation detected", [("hr", ⟨.above_maximum, 7, 5⟩)]) := by
  norm_num [check_safety_violation, svStep, alookup, dictSet]

/-- C3 amended: `check_safety_violation` performs no defensive
spec-consistency re-check.  For any spec with `min ≥ max` and any value
below the min and above the max, it returns a normal violation report
computed from the inconsistent spec, never an `InvalidThresholdSpec`
failure. -/
theorem C3_no_defensive_recheck (lo hi v : ℚ) (hbad : hi ≤ lo) (h1 : v < lo) (h2 : hi < v) :
    check_safety_violation [("m", ⟨some lo, some hi⟩)] [("m", v)] =
      (true, "Safety parameter violation detected", [("m", ⟨.above_maximum, v, hi⟩)]) := by
  unfold check_safety_violation svStep
  simp [alookup, dictSet, h1, h2]

/-- C3 witness. -/
theorem C3_no_defensive_recheck_witness :
    check_safety_violation [("m", ⟨some 10, some 5⟩)] [("m", 7)] =
      (true, "Safety parameter violation detected", [("m", ⟨.above_maximum, 7, 5⟩)]) :=
  C3_no_defensive_recheck 10 5 7 (by norm_num) (by norm_num) (by norm_num)

/-! ## Claim theorems: severity scorer -/

theorem sevStep_eq_spec (a : ℚ) (d : ViolationDetail) (h : 0 ≤ a) :
    sevStep a d = max a (entrySeveritySpec d) := by
  rcases d with ⟨ty, value, threshold⟩
  cases ty <;>
    simp only [sevStep, entrySeveritySpec] <;>
    rw [max_comm (0 : ℚ), ← max_assoc, max_eq_left (h.trans (le_max_left a _))]

theorem sevFold_eq_specFold (l : List (String × ViolationDetail)) :
    ∀ a : ℚ, 0 ≤ a →
      l.foldl (fun acc p => sevStep acc p.2) a =
        l.foldl (fun acc p => max acc (entrySeveritySpec p.2)) a := by
  induction l with
  | nil => intro a _; rfl
  | cons p rest ih =>
    intro a ha
    rw [List.foldl_cons, List.foldl_cons, sevStep_eq_spec a p.2 ha]
    exact ih _ (le_trans ha (le_max_left _ _))

/-- C4 counterexample: an `above_maximum` violation of value 4 against
threshold 3 scores `0.333` (the code rounds to three decimals), while the
maximum of the per-entry clamped severities is `1/3`. -/
theorem C4_severity_max_cex :
    calculate_severity_score [("x", ⟨.above_maximum, 4, 3⟩)] ≠
      maxSeveritySpec [("x", ⟨.above_maximum, 4, 3⟩)] := by
  have hl : calculate_severity_score [("x", ⟨.above_maximum, 4, 3⟩)] = 333 / 1000 := by
    norm_num [calculate_severity_score, sevStep, pyRound3, roundHalfEven]
  have hr : maxSeveritySpec [("x", ⟨.above_maximum, 4, 3⟩)] = 1 / 3 := by
    norm_num [maxSeveritySpec, entrySeveritySpec]
  rw [hl, hr]
  norm_num

/-- C4 amended: for violation reports with non-zero thresholds the overall
severity score equals the maximum over the per-entry clamped severities
*rounded to three decimals* (Python's `round(…, 3)`); worst case
dominates, never an average, and the below-minimum violation of value 5
against threshold 20 scores exactly 0.75. -/
theorem C4_severity_max_rounded :
    (∀ details : List (String × ViolationDetail), (∀ p ∈ details, p.2.threshold ≠ 0) →
      calculate_severity_score details = pyRound3 (maxSeveritySpec details)) ∧
    calculate_severity_score [("x", ⟨.below_minimum, 5, 20⟩)] = 3 / 4 := by
  constructor
  · intro details h
    unfold calculate_severity_score
    rw [if_neg, maxSeveritySpec, sevFold_eq_specFold details 0 le_rfl]
    simp only [List.any_eq_true, not_exists, not_and, Bool.not_eq_true]
    intro p hp
    simpa using h p hp
  · norm_num [calculate_severity_score, sevStep, pyRound3, roundHalfEven]

/-- C4 witness: the spec's own `above_maximum` example, 160 against
threshold 150. -/
theorem C4_severity_max_rounded_witness :
    calculate_severity_score [("x", ⟨.above_maximum, 160, 150⟩)] =
      pyRound3 (maxSeveritySpec [("x", ⟨.above_maximum, 160, 150⟩)]) :=
  C4_severity_max_rounded.1 _ (by intro p hp; simp at hp; rw [hp]; norm_num)

/-- C5 counterexample: a violation detail with threshold 0 does not make
the scorer fail; the `except` clause catches the `ZeroDivisionError` and
returns the substitute maximum severity `1.0`. -/
theorem C5_zero_threshold_cex :
    calculate_severity_score [("x", ⟨.above_maximum, 5, 0⟩)] = 1 := by
  norm_num [calculate_severity_score]

/-- C5 amended: whenever any entry of the report carries a zero threshold,
`_calculate_severity_score` returns the substitute score `1.0` (maximum
severity) instead of failing with `InvalidThresholdSpec`. -/
theorem C5_zero_threshold_returns_one (details : List (String × ViolationDetail))
    (h : details.any (fun p => p.2.threshold == 0) = true) :
    calculate_severity_score details = 1 := by
  unfold calculate_severity_score
  rw [if_pos h]

/-- C5 witness. -/
theorem C5_zero_threshold_returns_one_witness :
    calculate_severity_score [("y", ⟨.below_minimum, 3, 0⟩)] = 1 :=
  C5_zero_threshold_returns_one _ (by norm_num)

/-! ## Claim theorems: safety-parameters schema validator -/

/-- C9: `validate_safety_parameters` accepts every structurally valid
safety spec whose alert ranges nest inside their critical ranges
(`alert.min ≥ critical.min` and `alert.max ≤ critical.max` for every
marker) and returns `True`; whenever some marker's alert range breaches
its critical range, it fails with a schema violation whose details name
an offending marker. -/
theorem C9_alert_nests_in_critical (sp : SafetyParams) (hschema : schemaOk sp = true) :
    ((∀ e ∈ sp.markers,
        e.2.critical_ranges.rmin ≤ e.2.alert_ranges.rmin ∧
          e.2.alert_ranges.rmax ≤ e.2.critical_ranges.rmax) →
      validate_safety_parameters sp = .ok true) ∧
    (∀ e ∈ sp.markers,
      (e.2.alert_ranges.rmin < e.2.critical_ranges.rmin ∨
        e.2.critical_ranges.rmax < e.2.alert_ranges.rmax) →
      ∃ e', e' ∈ sp.markers ∧
        (e'.2.alert_ranges.rmin < e'.2.critical_ranges.rmin ∨
          e'.2.critical_ranges.rmax < e'.2.alert_ranges.rmax) ∧
        validate_safety_parameters sp = .error (.invalidRanges e'.1)) := by
  constructor
  · intro hnest
    unfold validate_safety_parameters
    rw [hschema]
    have hnone : sp.markers.find? (fun e => rangeBreach e.2) = none := by
      rw [List.find?_eq_none]
      intro e he
      obtain ⟨h1, h2⟩ := hnest e he
      simp [rangeBreach, not_lt.mpr h1, not_lt.mpr h2]
    rw [hnone]
    simp
  · intro e he hbr
    have hsome : ∃ e', sp.markers.find? (fun e => rangeBreach e.2) = some e' := by
      have : (sp.markers.find? (fun e => rangeBreach e.2)).isSome = true := by
        rw [List.find?_isSome]
        exact ⟨e, he, by simpa [rangeBreach] using hbr⟩
      exact Option.isSome_iff_exists.mp this
    obtain ⟨e', hfind⟩ := hsome
    refine ⟨e', List.mem_of_find?_eq_some hfind, ?_, ?_⟩
    · have := List.find?_some hfind
      simpa [rangeBreach] using this
    · unfold validate_safety_parameters
      rw [hschema, hfind]
      simp

/-- C9 witness: the spec's own example — alert `{min 15, max 90}` nested
inside critical `{min 10, max 100}` passes, and alert `{min 5, max 90}`
breaching `critical.min = 10` fails naming the marker. -/
theorem C9_alert_nests_in_critical_witness :
    validate_safety_parameters
        ⟨[("ldl", ⟨⟨10, 100, "mg", none, none⟩, ⟨15, 90, "mg", none, none⟩, none⟩)], []⟩ =
      .ok true ∧
    ∃ e', e' ∈ ([("ldl", (⟨⟨10, 100, "mg", none, none⟩, ⟨5, 90, "mg", none, none⟩, none⟩ :
        MarkerSpec))] : List (String × MarkerSpec)) ∧
      (e'.2.alert_ranges.rmin < e'.2.critical_ranges.rmin ∨
        e'.2.critical_ranges.rmax < e'.2.alert_ranges.rmax) ∧
      validate_safety_parameters
          ⟨[("ldl", ⟨⟨10, 100, "mg", none, none⟩, ⟨5, 90, "mg", none, none⟩, none⟩)], []⟩ =
        .error (.invalidRanges e'.1) := by
  constructor
  · have h := C9_alert_nests_in_critical
      ⟨[("ldl", ⟨⟨10, 100, "mg", none, none⟩, ⟨15, 90, "mg", none, none⟩, none⟩)], []⟩
      (by decide)
    refine h.1 ?_
    intro e he
    simp only [List.mem_singleton] at he
    subst he
    norm_num
  · have h := C9_alert_nests_in_critical
      ⟨[("ldl", ⟨⟨10, 100, "mg", none, none⟩, ⟨5, 90, "mg", none, none⟩, none⟩)], []⟩
      (by decide)
    exact h.2 ("ldl", ⟨⟨10, 100, "mg", none, none⟩, ⟨5, 90, "mg", none, none⟩, none⟩)
      (by simp) (by norm_num)

/-! ## Claim theorems: statistical summarizer and pattern detector -/

theorem quantileLin_single (v q : ℚ) : quantileLin [v] q = v := by
  norm_num [quantileLin, sortQ, insertAsc]

theorem sampleStd_single (sqrtFn : ℚ → ℚ) (v : ℚ) : sampleStd sqrtFn [v] = .nan := by
  norm_num [sampleStd, sumSqDev, pySqrt, PyFloat.div]

theorem semOf_single (sqrtFn : ℚ → ℚ) (v : ℚ) : semOf sqrtFn [.num v] = .nan := by
  norm_num [semOf, pySum, pyMeanL, pySqrt, PyFloat.div, PyFloat.add, PyFloat.sub,
    PyFloat.mul]

theorem metricStatsOf_single (sqrtFn : ℚ → ℚ) (tq : ℕ → ℚ) (v : ℚ) :
    metricStatsOf sqrtFn tq "x" [⟨[("x", v)], none⟩] =
      ⟨v, v, .nan, v, v, v, v, v, .nan, .nan⟩ := by
  have hobs : obsOf "x" [⟨[("x", v)], none⟩] = [v] := by
    simp [obsOf, alookup]
  have hcol : colVals "x" [⟨[("x", v)], none⟩] = [.num v] := by
    simp [colVals, alookup]
  have hmean : sampleMean [v] = v := by
    norm_num [sampleMean]
  unfold metricStatsOf
  simp only [hobs, hcol, hmean, sampleStd_single, semOf_single, quantileLin_single]
  simp [minObs, maxObs, PyFloat.sub, PyFloat.add, PyFloat.mul]

/-- C6 counterexample: on the single observation `[42]` the summary
*stores* `std_dev` and both confidence-interval bounds as NaN — the
fields are present with NaN values, not omitted, and not all numeric
values present in the output are finite. -/
theorem C6_degenerate_nan_cex :
    compute_statistics sqrtZero tqStub [⟨[("x", 42)], none⟩] =
      .ok ⟨1, [("x", ⟨42, 42, .nan, 42, 42, 42, 42, 42, .nan, .nan⟩)], none, none⟩ := by
  unfold compute_statistics
  rw [if_neg (by simp)]
  rw [show numericCols [⟨[("x", (42 : ℚ))], none⟩] = ["x"] by
    simp [numericCols, dedupFirstAux]]
  simp [metricStatsOf_single]

/-- Zero-variance Pearson entry: the pair `x = [1,1]`, `y = [1,2]` has a
constant first column, `Sxx = 0`, so the coefficient is the float `0/0`,
NaN (using that the library square root sends `0` to `0`). -/
theorem pearsonPair_zero_variance (sqrtFn : ℚ → ℚ) (h : sqrtFn 0 = 0) :
    pearsonPair sqrtFn "x" "y"
      [⟨[("x", 1), ("y", 1)], none⟩, ⟨[("x", 1), ("y", 2)], none⟩] = .nan := by
  have hp : pairVals "x" "y"
      [⟨[("x", 1), ("y", 1)], none⟩, ⟨[("x", 1), ("y", 2)], none⟩] = [(1, 1), (1, 2)] := by
    simp [pairVals, alookup]
  unfold pearsonPair
  rw [hp]
  norm_num [pearsonPF, centered, dotPF, pySum, pyMeanL, pySqrt,
    PyFloat.div, PyFloat.add, PyFloat.sub, PyFloat.mul, h]

/-- C6 amended: `compute_statistics` stores degenerate optional values as
NaN instead of omitting them.  For a metric with exactly one observation
the mean is present and finite but `std_dev` and both 95%
confidence-interval bounds are stored as NaN; for a metric pair where zero
variance prevents a correlation coefficient, the pair's entry is present
in the Pearson matrix with value NaN. -/
theorem C6_degenerate_values_stored_as_nan :
    (∀ (sqrtFn : ℚ → ℚ) (tq : ℕ → ℚ) (v : ℚ),
      compute_statistics sqrtFn tq [⟨[("x", v)], none⟩] =
        .ok ⟨1, [("x", ⟨v, v, .nan, v, v, v, v, v, .nan, .nan⟩)], none, none⟩) ∧
    (∀ (sqrtFn : ℚ → ℚ) (tq : ℕ → ℚ), sqrtFn 0 = 0 →
      ∃ s, compute_statistics sqrtFn tq
          [⟨[("x", 1), ("y", 1)], none⟩, ⟨[("x", 1), ("y", 2)], none⟩] = .ok s ∧
        pearsonEntry s "x" "y" = some PyFloat.nan) := by
  constructor
  · intro sqrtFn tq v
    unfold compute_statistics
    rw [if_neg (by simp)]
    rw [show numericCols [⟨[("x", v)], none⟩] = ["x"] by
      simp [numericCols, dedupFirstAux]]
    simp [metricStatsOf_single]
  · intro sqrtFn tq h
    unfold compute_statistics
    rw [if_neg (by simp)]
    refine ⟨_, rfl, ?_⟩
    rw [show numericCols
        [(⟨[("x", 1), ("y", 1)], none⟩ : DataRecord), ⟨[("x", 1), ("y", 2)], none⟩] =
        ["x", "y"] by simp [numericCols, dedupFirstAux]]
    simp only [pearsonEntry, List.length_cons, List.length_nil]
    rw [if_pos (by norm_num)]
    simp only [Option.bind_some, Option.some_bind, corrMatrix, List.map_cons, List.map_nil,
      alookup, reduceIte, String.reduceEq]
    rw [pearsonPair_zero_variance sqrtFn h]

/-- C6 witness. -/
theorem C6_degenerate_values_stored_as_nan_witness :
    ∃ s, compute_statistics sqrtZero tqStub
        [⟨[("x", 1), ("y", 1)], none⟩, ⟨[("x", 1), ("y", 2)], none⟩] = .ok s ∧
      pearsonEntry s "x" "y" = some PyFloat.nan :=
  C6_degenerate_values_stored_as_nan.2 sqrtZero tqStub rfl

/-- C7 counterexample: an empty observation collection makes
`detect_patterns` return the empty pattern list — it does not fail with
`InsufficientData`. -/
theorem C7_empty_collection_cex :
    detect_patterns sqrtZero magStub4 [] (4/5) = .ok [] := rfl

/-- C7 amended: `detect_patterns` returns an empty pattern list (no
error) when the observation collection is empty, and it never fails on
any input — there is no `InsufficientData` path. -/
theorem C7_empty_list_never_errors :
    (∀ (sqrtFn : ℚ → ℚ) (magFn : List PyFloat → List ℚ) (threshold : ℚ),
      detect_patterns sqrtFn magFn [] threshold = .ok []) ∧
    (∀ (sqrtFn : ℚ → ℚ) (magFn : List PyFloat → List ℚ) (records : List DataRecord)
      (threshold : ℚ), ∃ l, detect_patterns sqrtFn magFn records threshold = .ok l) := by
  constructor
  · intro _ _ _
    rfl
  · intro sqrtFn magFn records threshold
    unfold detect_patterns
    split
    · exact ⟨[], rfl⟩
    · exact ⟨_, rfl⟩

/-! ## Evaluation lemmas for the concrete series -/

theorem sortByTs_ramp20 : sortByTs ramp20 = ramp20 := by
  norm_num [sortByTs, ramp20, insertTs, tsLT]

theorem colVals_ramp20 : colVals "x" ramp20 = rampCol := by
  norm_num [colVals, ramp20, rampCol, alookup]

theorem numericCols_ramp20 : numericCols ramp20 = ["x"] := by
  decide

theorem trend_ramp20 (sqrtFn : ℚ → ℚ) (h665 : sqrtFn 442225 = 665) :
    trendPatternsFor sqrtFn "x" 20 rampCol (4/5) =
      [.trend "x" .increasing (.num 1) (.num 1) (.num 1)] := by
  norm_num [trendPatternsFor, pearsonPF, lstsqSlope, lstsqIntercept, centered, dotPF,
    pySum, pyMeanL, pySqrt, PyFloat.div, PyFloat.add, PyFloat.sub, PyFloat.mul,
    PyFloat.pabs, PyFloat.geQ, PyFloat.gtZero, rampCol, List.range_succ, h665]

theorem fftfreq_getD_zero (n : ℕ) (hn : 0 < n) : (fftfreq n).getD 0 0 = 0 := by
  unfold fftfreq
  rw [List.getD_eq_getElem?_getD, List.getElem?_map, List.getElem?_range hn]
  have h2 : 0 < (n + 1) / 2 := Nat.le_div_iff_mul_le (by norm_num) |>.mpr (by omega)
  simp [h2]

/-- Seasonality on the 20-point ramp: the dominant non-DC magnitude sits
in the first tail position, so the code reads `frequencies[0] = 0`, which
is not positive, and no pattern is emitted. -/
theorem season_ramp20 (magFn : List PyFloat → List ℚ)
    (hmag : argmaxQ ((magFn rampCol).drop 1) = 0) :
    seasonalityPatternsFor magFn "x" 20 rampCol = [] := by
  unfold seasonalityPatternsFor
  rw [if_pos (by norm_num)]
  simp only [hmag, fftfreq_getD_zero 20 (by norm_num)]
  norm_num

theorem corrPatterns_single_col (sqrtFn : ℚ → ℚ) (records : List DataRecord)
    (threshold : ℚ) : corrPatternsFor sqrtFn records ["x"] threshold = [] := by
  simp [corrPatternsFor, colPairs]

/-- C8 counterexample: without timestamps, `detect_patterns` performs no
trend detection at all — the linear series `1..20` at threshold `0.8`
yields no pattern, while the claim promises exactly one Trend pattern
whether or not timestamps are supplied. -/
theorem C8_no_trend_without_timestamps_cex :
    detect_patterns sqrtStub665 magStub20 ramp20NoTs (4/5) = .ok [] := by
  unfold detect_patterns
  rw [if_neg (by decide)]
  have hts : ramp20NoTs.any (fun r => r.recorded_at.isSome) = false := by decide
  have hcols : numericCols ramp20NoTs = ["x"] := by decide
  simp only [hts, hcols, Bool.false_eq_true, if_false, corrPatterns_single_col,
    List.nil_append, List.filter_nil]

/-- C8 amended: the whole trend-detection block runs only when timestamps
are supplied (`recorded_at` present); the regression is of value against
sequence index.  With timestamps, the linear series `1..20` at threshold
`0.8` yields exactly one pattern: a Trend, direction increasing, with
confidence exactly 1 (slope 1, intercept 1).  The hypotheses state the
two facts about the library primitives the run needs: `sqrt(665²) = 665`,
and the FFT magnitude spectrum of the ramp has its dominant non-DC
component in bin 1 (tail argmax 0). -/
theorem C8_trend_requires_timestamps (sqrtFn : ℚ → ℚ) (magFn : List PyFloat → List ℚ)
    (h665 : sqrtFn 442225 = 665) (hmag : argmaxQ ((magFn rampCol).drop 1) = 0) :
    detect_patterns sqrtFn magFn ramp20 (4/5) =
      .ok [.trend "x" .increasing (.num 1) (.num 1) (.num 1)] := by
  unfold detect_patterns
  rw [if_neg (by decide)]
  have hts : ramp20.any (fun r => r.recorded_at.isSome) = true := by decide
  have hlen : ramp20.length = 20 := by decide
  simp only [hts, if_true, numericCols_ramp20, sortByTs_ramp20, colVals_ramp20, hlen,
    List.map_cons, List.map_nil, List.flatten, trend_ramp20 sqrtFn h665,
    season_ramp20 magFn hmag, corrPatterns_single_col, List.append_nil]
  norm_num [Pattern.conf, PyFloat.geQ]

/-- C8 witness: the concrete library stand-ins satisfy both hypotheses. -/
theorem C8_trend_requires_timestamps_witness :
    detect_patterns sqrtStub665 magStub20 ramp20 (4/5) =
      .ok [.trend "x" .increasing (.num 1) (.num 1) (.num 1)] :=
  C8_trend_requires_timestamps sqrtStub665 magStub20
    (by norm_num [sqrtStub665])
    (by norm_num [magStub20, argmaxQ, argmaxAux, List.replicate])

theorem sortByTs_alt4 : sortByTs alt4 = alt4 := by
  norm_num [sortByTs, alt4, insertTs, tsLT]

theorem colVals_alt4 : colVals "x" alt4 = alt4Col := by
  norm_num [colVals, alt4, alt4Col, alookup]

theorem numericCols_alt4 : numericCols alt4 = ["x"] := by
  decide

/-- Trend on the alternating series: `Sxy = -2`, `Sxx·Syy = 20`, so the
confidence is `2 / sqrt 20 ≈ 0.447 < 0.5` and no Trend pattern is
emitted (any value of the library square root above 4 gives this). -/
theorem trend_alt4_none (sqrtFn : ℚ → ℚ) (h20 : 4 < sqrtFn 20) :
    trendPatternsFor sqrtFn "x" 4 alt4Col (1/2) = [] := by
  have hpos : (0 : ℚ) < sqrtFn 20 := by linarith
  have hs0 : sqrtFn 20 ≠ 0 := ne_of_gt hpos
  have habs : |(-2 : ℚ) / sqrtFn 20| = 2 / sqrtFn 20 := by
    rw [abs_div, abs_of_pos hpos]
    norm_num
  have hlt : ¬ ((1 : ℚ) / 2 ≤ 2 / sqrtFn 20) := by
    rw [not_le, div_lt_div_iff hpos (by norm_num)]
    linarith
  unfold trendPatternsFor
  norm_num [pearsonPF, centered, dotPF, pySum, pyMeanL, pySqrt, PyFloat.div,
    PyFloat.add, PyFloat.sub, PyFloat.mul, PyFloat.pabs, PyFloat.geQ, alt4Col,
    List.range_succ, hs0, habs, hlt]

/-- Seasonality on the alternating series: the exact magnitude spectrum is
`[0, 0, 4, 0]` (the signal is the pure cosine at frequency 2/4), the tail
argmax is 1, and the code reads `frequencies[1] = 1/4 > 0`, reporting
`period_days = 4` with confidence `4/4 = 1`. -/
theorem season_alt4 (magFn : List PyFloat → List ℚ) (hmag : magFn alt4Col = [0, 0, 4, 0]) :
    seasonalityPatternsFor magFn "x" 4 alt4Col = [.seasonality "x" (.num 1) 4] := by
  unfold seasonalityPatternsFor
  rw [if_pos (by norm_num)]
  simp only [hmag]
  norm_num [fftfreq, argmaxQ, argmaxAux, maxObs, List.range_succ, PyFloat.div]

/-- C10 counterexample and code bug: on the 4-point series `1,-1,1,-1`
(true period 2) with threshold `0.5`, `detect_patterns` reports a
Seasonality pattern with `period_days = 4` and confidence 1.  The second
conjunct shows the frequency of the *dominant* non-zero-frequency
component (bin `1 + argmax(magnitude[1:]) = 2`) is `-1/2`, not positive:
per the claim no Seasonality pattern should have been reported at all,
and the code's period comes from indexing `frequencies` with the
unshifted tail argmax. -/
theorem C10_seasonality_offbyone (sqrtFn : ℚ → ℚ) (magFn : List PyFloat → List ℚ)
    (h20 : 4 < sqrtFn 20) (hmag : magFn alt4Col = [0, 0, 4, 0]) :
    detect_patterns sqrtFn magFn alt4 (1/2) = .ok [.seasonality "x" (.num 1) 4] ∧
    (fftfreq 4).getD (1 + argmaxQ (([(0 : ℚ), 0, 4, 0]).drop 1)) 0 < 0 := by
  constructor
  · unfold detect_patterns
    rw [if_neg (by decide)]
    have hts : alt4.any (fun r => r.recorded_at.isSome) = true := by decide
    have hlen : alt4.length = 4 := by decide
    simp only [hts, if_true, numericCols_alt4, sortByTs_alt4, colVals_alt4, hlen,
      List.map_cons, List.map_nil, List.flatten, trend_alt4_none sqrtFn h20,
      season_alt4 magFn hmag, corrPatterns_single_col, List.nil_append, List.append_nil]
    norm_num [Pattern.conf, PyFloat.geQ]
  · norm_num [fftfreq, argmaxQ, argmaxAux, List.range_succ]

/-- C10 witness: the concrete stand-ins (`sqrt 20 ↦ 5`, exact spectrum
`[0,0,4,0]`) satisfy both hypotheses. -/
theorem C10_seasonality_offbyone_witness :
    detect_patterns sqrtStub20 magStub4 alt4 (1/2) = .ok [.seasonality "x" (.num 1) 4] ∧
    (fftfreq 4).getD (1 + argmaxQ (([(0 : ℚ), 0, 4, 0]).drop 1)) 0 < 0 :=
  C10_seasonality_offbyone sqrtStub20 magStub4
    (by norm_num [sqrtStub20]) rfl

end MedAnalysis












